import Mathlib

/-!
Verification of the SPH (smoothed particle hydrodynamics) fluid simulator in
`engine/physics/sph.py`.  Float arithmetic is modelled by exact real
arithmetic; numpy arrays of three floats become `Vec3`; the per-particle
arrays become functions out of the index type with an explicit
`particle_count`.  Each definition mirrors the corresponding Python function.
-/

/-- Three-component vector of reals, modelling a numpy float triple. -/
@[ext]
structure Vec3 where
  x : ℝ
  y : ℝ
  z : ℝ

instance : Zero Vec3 := ⟨⟨0, 0, 0⟩⟩

instance : Add Vec3 := ⟨fun a b => ⟨a.x + b.x, a.y + b.y, a.z + b.z⟩⟩

instance : Neg Vec3 := ⟨fun a => ⟨-a.x, -a.y, -a.z⟩⟩

instance : Sub Vec3 := ⟨fun a b => ⟨a.x - b.x, a.y - b.y, a.z - b.z⟩⟩

/-- Elementwise (Hadamard) product: numpy multiplication of two arrays. -/
instance : Mul Vec3 := ⟨fun a b => ⟨a.x * b.x, a.y * b.y, a.z * b.z⟩⟩

/-- Scalar multiple: numpy multiplication of an array by a scalar. -/
instance : SMul ℝ Vec3 := ⟨fun c a => ⟨c * a.x, c * a.y, c * a.z⟩⟩

/-- Division of a vector by a scalar, as numpy broadcasts it. -/
noncomputable def Vec3.divR (a : Vec3) (c : ℝ) : Vec3 := ⟨a.x / c, a.y / c, a.z / c⟩

@[simp] lemma Vec3.zero_x : (0 : Vec3).x = 0 := rfl
@[simp] lemma Vec3.zero_y : (0 : Vec3).y = 0 := rfl
@[simp] lemma Vec3.zero_z : (0 : Vec3).z = 0 := rfl
@[simp] lemma Vec3.add_x (a b : Vec3) : (a + b).x = a.x + b.x := rfl
@[simp] lemma Vec3.add_y (a b : Vec3) : (a + b).y = a.y + b.y := rfl
@[simp] lemma Vec3.add_z (a b : Vec3) : (a + b).z = a.z + b.z := rfl
@[simp] lemma Vec3.sub_x (a b : Vec3) : (a - b).x = a.x - b.x := rfl
@[simp] lemma Vec3.sub_y (a b : Vec3) : (a - b).y = a.y - b.y := rfl
@[simp] lemma Vec3.sub_z (a b : Vec3) : (a - b).z = a.z - b.z := rfl
@[simp] lemma Vec3.mul_x (a b : Vec3) : (a * b).x = a.x * b.x := rfl
@[simp] lemma Vec3.mul_y (a b : Vec3) : (a * b).y = a.y * b.y := rfl
@[simp] lemma Vec3.mul_z (a b : Vec3) : (a * b).z = a.z * b.z := rfl
@[simp] lemma Vec3.smul_x (c : ℝ) (a : Vec3) : (c • a).x = c * a.x := rfl
@[simp] lemma Vec3.smul_y (c : ℝ) (a : Vec3) : (c • a).y = c * a.y := rfl
@[simp] lemma Vec3.smul_z (c : ℝ) (a : Vec3) : (c • a).z = c * a.z := rfl
@[simp] lemma Vec3.divR_x (a : Vec3) (c : ℝ) : (a.divR c).x = a.x / c := rfl
@[simp] lemma Vec3.divR_y (a : Vec3) (c : ℝ) : (a.divR c).y = a.y / c := rfl
@[simp] lemma Vec3.divR_z (a : Vec3) (c : ℝ) : (a.divR c).z = a.z / c := rfl
@[simp] lemma Vec3.mk_x (a b c : ℝ) : (Vec3.mk a b c).x = a := rfl
@[simp] lemma Vec3.mk_y (a b c : ℝ) : (Vec3.mk a b c).y = b := rfl
@[simp] lemma Vec3.mk_z (a b c : ℝ) : (Vec3.mk a b c).z = c := rfl

noncomputable instance : AddCommMonoid Vec3 where
  add_assoc a b c := by ext <;> simp [add_assoc]
  zero_add a := by ext <;> simp
  add_zero a := by ext <;> simp
  add_comm a b := by ext <;> simp [add_comm]
  nsmul := nsmulRec

/-- Squared distance between two particle positions, as computed coordinatewise
in the Python passes (`dx*dx + dy*dy + dz*dz`). -/
def distSq (a b : Vec3) : ℝ :=
  (a.x - b.x) * (a.x - b.x) + (a.y - b.y) * (a.y - b.y) + (a.z - b.z) * (a.z - b.z)

/-- Cubic spline kernel value, exactly the branch structure of the inner loop of
`calculate_densities_and_pressures` (lines 110-116 of `sph.py`): with
`q = r / h`, the value is `8/(pi h^4) (1 - 6 q^2 + 6 q^3)` for `q <= 0.5`,
`8/(pi h^4) 2 (1-q)^3` for `0.5 < q <= 1`, and nothing is added (value `0`)
for `q > 1`. -/
noncomputable def kernelW (r h : ℝ) : ℝ :=
  let q := r / h
  if q ≤ 1.0 then
    if q ≤ 0.5 then 8.0 / (Real.pi * h ^ 4) * (1 - 6 * q * q + 6 * q * q * q)
    else 8.0 / (Real.pi * h ^ 4) * 2 * (1 - q) ^ 3
  else 0

/-- Density and pressure pass (`calculate_densities_and_pressures`): for each
particle `i`, sum the kernel values over all `j` distinct from `i` whose
squared distance is below `h^2`, floor the sum at `rest_density * 0.1`, and
derive the pressure `pressure_constant * (density / rest_density - 1)`. -/
noncomputable def calculate_densities_and_pressures (positions : ℕ → Vec3)
    (smoothing_radius rest_density pressure_constant : ℝ) (particle_count : ℕ) :
    (ℕ → ℝ) × (ℕ → ℝ) :=
  let h := smoothing_radius
  let h_sq := h * h
  let densities := fun i =>
    let density := (List.range particle_count).foldl (fun acc j =>
      if i = j then acc
      else
        let dist_sq := distSq (positions i) (positions j)
        if dist_sq < h_sq then acc + kernelW (Real.sqrt dist_sq) h else acc) 0
    max density (rest_density * 0.1)
  (densities, fun i => pressure_constant * (densities i / rest_density - 1.0))

/-- Scalar factor of the kernel gradient, from `compute_kernel_gradient`
(lines 169-176 of `sph.py`): `24/(pi h^5) q (3q - 2)` for `q <= 0.5`, and the
negated `24/(pi h^5) (1-q)^2` for `q > 0.5` (zeroed when `q <= 1e-8`). -/
noncomputable def kernelGradMagnitude (r h : ℝ) : ℝ :=
  let q := r / h
  if q ≤ 0.5 then 24.0 / (Real.pi * h ^ 5) * q * (3.0 * q - 2.0)
  else
    let g := 24.0 / (Real.pi * h ^ 5) * (1.0 - q) ^ 2
    if q > 1e-8 then -g else 0.0

/-- Kernel gradient vector (`compute_kernel_gradient`): the unit vector from
`j` to `i` scaled by `kernelGradMagnitude`, or the zero vector when
`r <= 1e-8`. -/
noncomputable def compute_kernel_gradient (dx dy dz r h : ℝ) : Vec3 :=
  let grad_mag := kernelGradMagnitude r h
  if r > 1e-8 then ⟨dx / r * grad_mag, dy / r * grad_mag, dz / r * grad_mag⟩
  else ⟨0, 0, 0⟩

/-- One neighbor contribution of the force-pass inner loop (lines 140-159 of
`sph.py`): the pair of (pressure force increment, viscosity force increment)
particle `j` adds to particle `i`, including the `dist_sq < h^2` cutoff and the
near-zero guard `r > 1e-8`.  The pressure increment is
`-(grad_kernel * pressure_term)` and the viscosity increment is the numpy
elementwise product `viscosity * vel_diff * (grad_kernel / densities[j])`. -/
noncomputable def pairForceContribution (positions velocities : ℕ → Vec3)
    (densities pressures : ℕ → ℝ) (smoothing_radius viscosity : ℝ) (i j : ℕ) :
    Vec3 × Vec3 :=
  let h := smoothing_radius
  let dx := (positions i).x - (positions j).x
  let dy := (positions i).y - (positions j).y
  let dz := (positions i).z - (positions j).z
  let dist_sq := dx * dx + dy * dy + dz * dz
  if dist_sq < h * h then
    let r := Real.sqrt dist_sq
    if r > 1e-8 then
      let grad_kernel := compute_kernel_gradient dx dy dz r h
      let pressure_term := (pressures i + pressures j) / (2.0 * densities j)
      let vel_diff := velocities j - velocities i
      (0 - pressure_term • grad_kernel,
       viscosity • (vel_diff * grad_kernel.divR (densities j)))
    else (0, 0)
  else (0, 0)

/-- Force pass (`calculate_forces`): starting from the incoming force with
`gravity[1]` added to the y component only (line 131 of `sph.py`,
`forces[i, 1] += gravity[1]`), accumulate the per-pair pressure and viscosity
contributions over all `j` distinct from `i` and add both totals.  The
`kernel_constant` argument is accepted and ignored, as in the source. -/
noncomputable def calculate_forces (positions velocities : ℕ → Vec3)
    (densities pressures : ℕ → ℝ) (forces : ℕ → Vec3)
    (smoothing_radius viscosity kernel_constant : ℝ) (gravity : Vec3)
    (particle_count : ℕ) : ℕ → Vec3 :=
  fun i =>
    let f0 : Vec3 := ⟨(forces i).x, (forces i).y + gravity.y, (forces i).z⟩
    let pv := (List.range particle_count).foldl (fun acc j =>
      if i = j then acc
      else
        (acc.1 + (pairForceContribution positions velocities densities pressures
            smoothing_radius viscosity i j).1,
         acc.2 + (pairForceContribution positions velocities densities pressures
            smoothing_radius viscosity i j).2)) (0, 0)
    f0 + pv.1 + pv.2

/-- Per-axis boundary handling from `integrate_motion` (lines 199-205 of
`sph.py`): clamp to the low face and damp the velocity, else clamp to the high
face and damp, else leave both unchanged. -/
noncomputable def clampAxis (p v bmin bmax damping : ℝ) : ℝ × ℝ :=
  if p < bmin then (bmin, v * damping)
  else if p > bmax then (bmax, v * damping)
  else (p, v)

/-- One particle of `integrate_motion`: velocity update `v += f * dt`, position
update `p += v * dt`, then the three axes are clamped independently. -/
noncomputable def integrateParticle (p v f : Vec3) (dt : ℝ) (bmin bmax : Vec3)
    (damping : ℝ) : Vec3 × Vec3 :=
  let v1 := v + dt • f
  let p1 := p + dt • v1
  let ax := clampAxis p1.x v1.x bmin.x bmax.x damping
  let ay := clampAxis p1.y v1.y bmin.y bmax.y damping
  let az := clampAxis p1.z v1.z bmin.z bmax.z damping
  (⟨ax.1, ay.1, az.1⟩, ⟨ax.2, ay.2, az.2⟩)

/-- Integration pass (`integrate_motion`): returns the new positions and the
new velocities. -/
noncomputable def integrate_motion (positions velocities forces : ℕ → Vec3)
    (dt : ℝ) (boundary_min boundary_max : Vec3) (boundary_damping : ℝ) :
    (ℕ → Vec3) × (ℕ → Vec3) :=
  (fun i => (integrateParticle (positions i) (velocities i) (forces i) dt
      boundary_min boundary_max boundary_damping).1,
   fun i => (integrateParticle (positions i) (velocities i) (forces i) dt
      boundary_min boundary_max boundary_damping).2)

/-- The SPH system object: the fields `SPHSystem.__init__` stores. -/
structure SPHSystem where
  particle_count : ℕ
  smoothing_radius : ℝ
  rest_density : ℝ
  viscosity : ℝ
  pressure_stiffness : ℝ
  gravity : Vec3
  positions : ℕ → Vec3
  velocities : ℕ → Vec3
  densities : ℕ → ℝ
  pressures : ℕ → ℝ
  forces : ℕ → Vec3
  boundary_min : Vec3
  boundary_max : Vec3
  boundary_damping : ℝ
  kernel_constant : ℝ
  pressure_constant : ℝ

/-- Errors Python raises during `SPHSystem.__init__`. -/
inductive InitError where
  | ambiguousTruthValue
  | negativeDimensions
  | zeroDivisionError
deriving DecidableEq

/-- The `gravity` argument of `SPHSystem.__init__`: the default `None`, a
Python list of three floats, or a numpy array of three floats (the annotated
type `np.ndarray`). -/
inductive GravityArg where
  | none
  | pylist (v : Vec3)
  | ndarray (v : Vec3)

/-- Whether the gravity argument is a numpy array. -/
def GravityArg.isNdarray : GravityArg → Bool
  | .ndarray _ => true
  | _ => false

/-- Line 26 of `sph.py`, `np.array(gravity or [0.0, -9.81, 0.0])`: `None` is
falsy, yielding the default; a nonempty Python list is truthy and is used; a
numpy array with more than one element has an ambiguous truth value and
raises `ValueError`. -/
noncomputable def resolveGravity : GravityArg → Except InitError Vec3
  | .none => .ok ⟨0.0, -9.81, 0.0⟩
  | .pylist v => .ok v
  | .ndarray _ => .error .ambiguousTruthValue

/-- `SPHSystem.__init__`: no explicit validation is performed.  The only ways
construction can fail are the exceptions Python raises on the way: the
gravity truthiness test (line 26), the negative-dimension check inside
`np.random.uniform` when `particle_count` is negative (line 29), and the zero
division computing `kernel_constant = 8/(pi * smoothing_radius**4)` when the
denominator is zero (line 41).  The randomized initial positions are supplied
by `initPos`, standing for the draws of `np.random.uniform(-1, 1)`. -/
noncomputable def SPHSystem.build (particle_count : ℤ)
    (smoothing_radius rest_density viscosity pressure_stiffness : ℝ)
    (gravity : GravityArg) (initPos : ℕ → Vec3) : Except InitError SPHSystem :=
  match resolveGravity gravity with
  | .error e => .error e
  | .ok g =>
    if particle_count < 0 then .error .negativeDimensions
    else if Real.pi * smoothing_radius ^ 4 = 0 then .error .zeroDivisionError
    else .ok
      { particle_count := particle_count.toNat
        smoothing_radius := smoothing_radius
        rest_density := rest_density
        viscosity := viscosity
        pressure_stiffness := pressure_stiffness
        gravity := g
        positions := initPos
        velocities := fun _ => ⟨0, 0, 0⟩
        densities := fun _ => rest_density
        pressures := fun _ => 0
        forces := fun _ => ⟨0, 0, 0⟩
        boundary_min := ⟨-3.0, -1.0, -3.0⟩
        boundary_max := ⟨3.0, 5.0, 3.0⟩
        boundary_damping := -0.5
        kernel_constant := 8.0 / (Real.pi * smoothing_radius ^ 4)
        pressure_constant := pressure_stiffness * rest_density }

/-- `SPHSystem.update(dt)`: density/pressure pass, force pass, integration
pass, then the force buffer is cleared. -/
noncomputable def SPHSystem.update (s : SPHSystem) (dt : ℝ) : SPHSystem :=
  let dp := calculate_densities_and_pressures s.positions s.smoothing_radius
    s.rest_density s.pressure_constant s.particle_count
  let f := calculate_forces s.positions s.velocities dp.1 dp.2 s.forces
    s.smoothing_radius s.viscosity s.kernel_constant s.gravity s.particle_count
  let pv := integrate_motion s.positions s.velocities f dt s.boundary_min
    s.boundary_max s.boundary_damping
  { s with positions := pv.1, velocities := pv.2, densities := dp.1,
           pressures := dp.2, forces := fun _ => ⟨0, 0, 0⟩ }

/-- Densities as recomputed by the density pass of one `update` call. -/
noncomputable def SPHSystem.stepDensities (s : SPHSystem) : ℕ → ℝ :=
  (calculate_densities_and_pressures s.positions s.smoothing_radius
    s.rest_density s.pressure_constant s.particle_count).1

/-- Pressures as recomputed by the density pass of one `update` call. -/
noncomputable def SPHSystem.stepPressures (s : SPHSystem) : ℕ → ℝ :=
  (calculate_densities_and_pressures s.positions s.smoothing_radius
    s.rest_density s.pressure_constant s.particle_count).2

/-- Forces as recomputed by the force pass of one `update` call. -/
noncomputable def SPHSystem.stepForces (s : SPHSystem) : ℕ → Vec3 :=
  calculate_forces s.positions s.velocities s.stepDensities s.stepPressures
    s.forces s.smoothing_radius s.viscosity s.kernel_constant s.gravity
    s.particle_count

/-- Particle `i` has no other particle strictly inside the smoothing radius. -/
def NoNeighbor (s : SPHSystem) (i : ℕ) : Prop :=
  ∀ j, j < s.particle_count → j ≠ i →
    ¬ distSq (s.positions i) (s.positions j) < s.smoothing_radius * s.smoothing_radius

/-- Componentwise order on vectors. -/
def axisLe (a b : Vec3) : Prop := a.x ≤ b.x ∧ a.y ≤ b.y ∧ a.z ≤ b.z

/-- Position `p` lies in the axis-aligned box `[bmin, bmax]` on every axis. -/
def inBox (bmin bmax p : Vec3) : Prop :=
  (bmin.x ≤ p.x ∧ p.x ≤ bmax.x) ∧ (bmin.y ≤ p.y ∧ p.y ≤ bmax.y) ∧
    (bmin.z ≤ p.z ∧ p.z ≤ bmax.z)

/-- Viscosity contribution as the specification words it: the velocity
difference vector scaled by the one scalar
`kernel_gradient_magnitude / density[j]`, under the same distance cutoff and
near-zero guard as the code.  Written from the spec sentence for comparison
with the contribution the code accumulates. -/
noncomputable def viscosityContributionSpec (positions velocities : ℕ → Vec3)
    (densities : ℕ → ℝ) (smoothing_radius viscosity : ℝ) (i j : ℕ) : Vec3 :=
  let h := smoothing_radius
  let dist_sq := distSq (positions i) (positions j)
  if dist_sq < h * h then
    let r := Real.sqrt dist_sq
    if r > 1e-8 then
      viscosity • ((kernelGradMagnitude r h / densities j) •
        (velocities j - velocities i))
    else 0
  else 0

/-- Integration of one particle as the specification words it: semi-implicit
Euler, then for each of the three axes independently, clamp to the crossed
face and multiply that velocity component by the damping factor.  Written from
the spec sentence for comparison with `integrateParticle`. -/
noncomputable def integrateParticleSpec (p v f : Vec3) (dt : ℝ)
    (bmin bmax : Vec3) (damping : ℝ) : Vec3 × Vec3 :=
  let v1 := v + dt • f
  let p1 := p + dt • v1
  let px := if p1.x < bmin.x then bmin.x else if p1.x > bmax.x then bmax.x else p1.x
  let py := if p1.y < bmin.y then bmin.y else if p1.y > bmax.y then bmax.y else p1.y
  let pz := if p1.z < bmin.z then bmin.z else if p1.z > bmax.z then bmax.z else p1.z
  let vx := if p1.x < bmin.x ∨ p1.x > bmax.x then v1.x * damping else v1.x
  let vy := if p1.y < bmin.y ∨ p1.y > bmax.y then v1.y * damping else v1.y
  let vz := if p1.z < bmin.z ∨ p1.z > bmax.z then v1.z * damping else v1.z
  (⟨px, py, pz⟩, ⟨vx, vy, vz⟩)

/-- One-particle system used to instantiate the theorems on concrete inputs:
the constructor defaults with a single particle at the origin. -/
noncomputable def demoSystem : SPHSystem where
  particle_count := 1
  smoothing_radius := 0.1
  rest_density := 1000.0
  viscosity := 0.1
  pressure_stiffness := 3.0
  gravity := ⟨0.0, -9.81, 0.0⟩
  positions := fun _ => ⟨0, 0, 0⟩
  velocities := fun _ => ⟨0, 0, 0⟩
  densities := fun _ => 1000.0
  pressures := fun _ => 0
  forces := fun _ => ⟨0, 0, 0⟩
  boundary_min := ⟨-3.0, -1.0, -3.0⟩
  boundary_max := ⟨3.0, 5.0, 3.0⟩
  boundary_damping := -0.5
  kernel_constant := 8.0 / (Real.pi * (0.1 : ℝ) ^ 4)
  pressure_constant := 3.0 * 1000.0

/-- Concrete positions for a two-particle pair 0.05 apart along the x axis. -/
noncomputable def cpos : ℕ → Vec3 := fun i => if i = 0 then ⟨0, 0, 0⟩ else ⟨0.05, 0, 0⟩

/-- Concrete velocities: particle 1 moves along the y axis. -/
noncomputable def cvel : ℕ → Vec3 := fun i => if i = 0 then ⟨0, 0, 0⟩ else ⟨0, 1, 0⟩

/-- Concrete densities for the pair. -/
noncomputable def cdens : ℕ → ℝ := fun _ => 100.0

/-- Concrete pressures for the pair. -/
noncomputable def cpres : ℕ → ℝ := fun _ => 0

lemma range_one_eq : List.range 1 = [0] := rfl

lemma foldl_add_shift {M : Type} [AddCommMonoid M] (l : List ℕ) (g : ℕ → M) (a : M) :
    l.foldl (fun acc j => acc + g j) a = a + (l.map g).sum := by
  induction l generalizing a with
  | nil => simp
  | cons x xs ih => simp [ih, add_assoc]

lemma foldl_skip_guard (l : List ℕ) (i : ℕ) (c : ℕ → Prop) [DecidablePred c]
    (g : ℕ → ℝ) (a : ℝ) :
    l.foldl (fun acc j => if i = j then acc else if c j then acc + g j else acc) a
      = a + (l.map fun j => if i = j then 0 else if c j then g j else 0).sum := by
  induction l generalizing a with
  | nil => simp
  | cons x xs ih =>
    by_cases h1 : i = x
    · subst h1
      simp [ih, add_assoc]
    · by_cases h2 : c x <;> simp [h1, h2, ih, add_assoc]

lemma foldl_skip_pair {M N : Type} [AddCommMonoid M] [AddCommMonoid N]
    (l : List ℕ) (i : ℕ) (g1 : ℕ → M) (g2 : ℕ → N) (a : M × N) :
    l.foldl (fun acc j => if i = j then acc else (acc.1 + g1 j, acc.2 + g2 j)) a
      = (a.1 + (l.map fun j => if i = j then 0 else g1 j).sum,
         a.2 + (l.map fun j => if i = j then 0 else g2 j).sum) := by
  induction l generalizing a with
  | nil => simp
  | cons x xs ih =>
    by_cases h1 : i = x
    · subst h1
      simp [ih, add_assoc]
    · simp [h1, ih, add_assoc]

lemma clampAxis_fst_mem (p v bmin bmax d : ℝ) (hb : bmin ≤ bmax) :
    bmin ≤ (clampAxis p v bmin bmax d).1 ∧ (clampAxis p v bmin bmax d).1 ≤ bmax := by
  unfold clampAxis
  by_cases h1 : p < bmin
  · simp [h1, hb]
  · by_cases h2 : p > bmax
    · simp [h1, h2, hb]
    · simp only [if_neg h1, if_neg h2]
      exact ⟨le_of_not_lt h1, le_of_not_lt h2⟩

lemma clampAxis_eq_self (p v bmin bmax d : ℝ) (h1 : bmin ≤ p) (h2 : p ≤ bmax) :
    clampAxis p v bmin bmax d = (p, v) := by
  unfold clampAxis
  rw [if_neg (not_lt.mpr h1), if_neg (not_lt.mpr h2)]

lemma clampAxis_eq_spec (p v bmin bmax d : ℝ) :
    clampAxis p v bmin bmax d
      = (if p < bmin then bmin else if p > bmax then bmax else p,
         if p < bmin ∨ p > bmax then v * d else v) := by
  unfold clampAxis
  by_cases h1 : p < bmin
  · simp [h1]
  · by_cases h2 : p > bmax <;> simp [h1, h2]

lemma update_positions_eq (s : SPHSystem) (dt : ℝ) (i : ℕ) :
    (s.update dt).positions i
      = (integrateParticle (s.positions i) (s.velocities i) (s.stepForces i) dt
          s.boundary_min s.boundary_max s.boundary_damping).1 := rfl

lemma update_velocities_eq (s : SPHSystem) (dt : ℝ) (i : ℕ) :
    (s.update dt).velocities i
      = (integrateParticle (s.positions i) (s.velocities i) (s.stepForces i) dt
          s.boundary_min s.boundary_max s.boundary_damping).2 := rfl

lemma update_densities_eq (s : SPHSystem) (dt : ℝ) (i : ℕ) :
    (s.update dt).densities i = s.stepDensities i := rfl

lemma integrateParticle_zero_dt (p v f : Vec3) (bmin bmax : Vec3) (d : ℝ)
    (hp : inBox bmin bmax p) :
    integrateParticle p v f 0 bmin bmax d = (p, v) := by
  simp only [integrateParticle]
  have hv1 : v + (0 : ℝ) • f = v := by ext <;> simp
  have hp1 : p + (0 : ℝ) • v = p := by ext <;> simp
  rw [hv1, hp1, clampAxis_eq_self _ _ _ _ _ hp.1.1 hp.1.2,
    clampAxis_eq_self _ _ _ _ _ hp.2.1.1 hp.2.1.2,
    clampAxis_eq_self _ _ _ _ _ hp.2.2.1 hp.2.2.2]

lemma pairVisc_eval (positions velocities : ℕ → Vec3) (densities pressures : ℕ → ℝ)
    (h μ : ℝ) (i j : ℕ)
    (h1 : distSq (positions i) (positions j) < h * h)
    (h2 : Real.sqrt (distSq (positions i) (positions j)) > 1e-8) :
    (pairForceContribution positions velocities densities pressures h μ i j).2
      = ⟨μ * (((velocities j).x - (velocities i).x) *
            ((((positions i).x - (positions j).x)
                / Real.sqrt (distSq (positions i) (positions j))
                * kernelGradMagnitude
                    (Real.sqrt (distSq (positions i) (positions j))) h)
              / densities j)),
         μ * (((velocities j).y - (velocities i).y) *
            ((((positions i).y - (positions j).y)
                / Real.sqrt (distSq (positions i) (positions j))
                * kernelGradMagnitude
                    (Real.sqrt (distSq (positions i) (positions j))) h)
              / densities j)),
         μ * (((velocities j).z - (velocities i).z) *
            ((((positions i).z - (positions j).z)
                / Real.sqrt (distSq (positions i) (positions j))
                * kernelGradMagnitude
                    (Real.sqrt (distSq (positions i) (positions j))) h)
              / densities j))⟩ := by
  simp only [distSq] at h1 h2 ⊢
  simp only [pairForceContribution, compute_kernel_gradient]
  rw [if_pos h1, if_pos h2, if_pos h2]
  ext <;>
    simp only [Vec3.smul_x, Vec3.smul_y, Vec3.smul_z, Vec3.mul_x, Vec3.mul_y,
      Vec3.mul_z, Vec3.sub_x, Vec3.sub_y, Vec3.sub_z, Vec3.divR_x, Vec3.divR_y,
      Vec3.divR_z, Vec3.mk_x, Vec3.mk_y, Vec3.mk_z]

lemma cpos_distSq : distSq (cpos 0) (cpos 1) = 0.0025 := by
  simp only [cpos, distSq]
  norm_num

lemma cpos_sqrt : Real.sqrt (distSq (cpos 0) (cpos 1)) = 0.05 := by
  rw [cpos_distSq, show (0.0025 : ℝ) = 0.05 ^ 2 by norm_num,
    Real.sqrt_sq (by norm_num : (0.05 : ℝ) ≥ 0)]

lemma kernelGradMagnitude_demo_neg : kernelGradMagnitude 0.05 0.1 < 0 := by
  unfold kernelGradMagnitude
  rw [if_pos (by norm_num : (0.05 : ℝ) / 0.1 ≤ 0.5)]
  have hA : (0 : ℝ) < 24.0 / (Real.pi * (0.1 : ℝ) ^ 5) := by positivity
  have h05 : (0.05 : ℝ) / 0.1 = 0.5 := by norm_num
  rw [h05]
  nlinarith [hA]

lemma stepDensities_eq (s : SPHSystem) (i : ℕ) :
    s.stepDensities i
      = max (((List.range s.particle_count).map fun j =>
          if i = j then 0 else
            if distSq (s.positions i) (s.positions j)
                < s.smoothing_radius * s.smoothing_radius
            then kernelW (Real.sqrt (distSq (s.positions i) (s.positions j)))
              s.smoothing_radius
            else 0).sum)
        (s.rest_density * 0.1) := by
  unfold SPHSystem.stepDensities calculate_densities_and_pressures
  simp only
  rw [foldl_skip_guard (List.range s.particle_count) i
    (fun j => distSq (s.positions i) (s.positions j)
      < s.smoothing_radius * s.smoothing_radius)
    (fun j => kernelW (Real.sqrt (distSq (s.positions i) (s.positions j)))
      s.smoothing_radius) 0]
  rw [zero_add]

/-- C1: after every `update(dt)` call the stored density of every particle is
at least `rest_density * 0.1`, and a particle with no neighbor inside the
smoothing radius gets exactly `rest_density * 0.1` (the second part needs the
rest density to be nonnegative, since the floor is a maximum with the bare
kernel sum). -/
theorem density_floor_after_update (s : SPHSystem) (dt : ℝ) (i : ℕ)
    (hi : i < s.particle_count) :
    s.rest_density * 0.1 ≤ (s.update dt).densities i ∧
      (0 ≤ s.rest_density → NoNeighbor s i →
        (s.update dt).densities i = s.rest_density * 0.1) := by
  rw [update_densities_eq, stepDensities_eq]
  constructor
  · exact le_max_right _ _
  · intro hd hno
    have hz : (((List.range s.particle_count).map fun j =>
        if i = j then 0 else
          if distSq (s.positions i) (s.positions j)
              < s.smoothing_radius * s.smoothing_radius
          then kernelW (Real.sqrt (distSq (s.positions i) (s.positions j)))
            s.smoothing_radius
          else 0).sum) = 0 := by
      apply List.sum_eq_zero
      intro x hx
      rcases List.mem_map.mp hx with ⟨j, hj, rfl⟩
      by_cases h1 : i = j
      · simp [h1]
      · have hjn : j < s.particle_count := List.mem_range.mp hj
        have hfar := hno j hjn (fun hji => h1 hji.symm)
        simp [h1, hfar]
    rw [hz]
    exact max_eq_right (mul_nonneg hd (by norm_num))

/-- C1 witness: the one-particle demo system after one step at dt 0.01: its
density is exactly the floor value, and at least the floor value. -/
theorem density_floor_after_update_witness :
    demoSystem.rest_density * 0.1 ≤ (demoSystem.update 0.01).densities 0 ∧
      (demoSystem.update 0.01).densities 0 = demoSystem.rest_density * 0.1 := by
  have h := density_floor_after_update demoSystem 0.01 0 (by norm_num [demoSystem])
  refine ⟨h.1, h.2 (by norm_num [demoSystem]) ?_⟩
  intro j hj hne
  simp only [demoSystem] at hj
  omega

/-- C4: after every `update(dt)` call every particle position lies inside the
boundary box on every axis, for any state whose boundary box is ordered
componentwise (the constructor boxes are). -/
theorem boundary_containment_after_update (s : SPHSystem) (dt : ℝ) (i : ℕ)
    (hi : i < s.particle_count) (hb : axisLe s.boundary_min s.boundary_max) :
    inBox s.boundary_min s.boundary_max ((s.update dt).positions i) := by
  rw [update_positions_eq]
  simp only [integrateParticle]
  obtain ⟨hbx, hby, hbz⟩ := hb
  exact ⟨clampAxis_fst_mem _ _ _ _ _ hbx, clampAxis_fst_mem _ _ _ _ _ hby,
    clampAxis_fst_mem _ _ _ _ _ hbz⟩

/-- C4 witness: the demo system position after one step stays in its box. -/
theorem boundary_containment_after_update_witness :
    inBox demoSystem.boundary_min demoSystem.boundary_max
      ((demoSystem.update 0.01).positions 0) :=
  boundary_containment_after_update demoSystem 0.01 0
    (by norm_num [demoSystem]) (by norm_num [demoSystem, axisLe])

/-- C7: kernel support and continuity: the density kernel is zero at and
beyond the smoothing radius, positive strictly inside it, and the two
piecewise branches agree at q one half (the low-branch value at r equal to
half of h equals the high-branch formula evaluated there). -/
theorem kernel_support_and_continuity (r h : ℝ) (hh : 0 < h) :
    (h ≤ r → kernelW r h = 0) ∧
      (0 ≤ r → r < h → 0 < kernelW r h) ∧
      kernelW (h / 2) h = 8.0 / (Real.pi * h ^ 4) * 2 * (1 - (h / 2) / h) ^ 3 := by
  have hC : (0 : ℝ) < 8.0 / (Real.pi * h ^ 4) := by positivity
  refine ⟨?_, ?_, ?_⟩
  · intro hr
    have hq1 : 1 ≤ r / h := (one_le_div hh).mpr hr
    simp only [kernelW]
    by_cases hq : r / h ≤ 1.0
    · have heq : r / h = 1 := le_antisymm (by linarith [hq]) hq1
      rw [if_pos hq, if_neg (by rw [heq]; norm_num), heq]
      norm_num
    · rw [if_neg hq]
  · intro hr0 hrh
    have hq1 : r / h < 1 := (div_lt_one hh).mpr hrh
    have hq0 : 0 ≤ r / h := div_nonneg hr0 hh.le
    simp only [kernelW]
    rw [if_pos (by norm_num; linarith : r / h ≤ (1.0 : ℝ))]
    by_cases hhalf : r / h ≤ 0.5
    · rw [if_pos hhalf]
      have hhalf2 : r / h ≤ (1 : ℝ) / 2 := by linarith [hhalf]
      have hpoly : 0 < 1 - 6 * (r / h) * (r / h) + 6 * (r / h) * (r / h) * (r / h) := by
        nlinarith [mul_nonneg hq0 (sq_nonneg (r / h - 1 / 2))]
      exact mul_pos hC hpoly
    · rw [if_neg hhalf]
      have hpow : (0 : ℝ) < (1 - r / h) ^ 3 := pow_pos (by linarith) 3
      have h2 : (0 : ℝ) < 8.0 / (Real.pi * h ^ 4) * 2 := by positivity
      exact mul_pos h2 hpow
  · have hq : (h / 2) / h = 1 / 2 := by
      field_simp
      ring
    simp only [kernelW]
    rw [hq]
    rw [if_pos (by norm_num), if_pos (by norm_num)]
    norm_num
    ring

/-- C7 witness: concrete kernel evaluations at h 1: zero outside the support,
positive inside it, and branch agreement at the joint. -/
theorem kernel_support_and_continuity_witness :
    kernelW 2 1 = 0 ∧ 0 < kernelW 0.25 1 ∧
      kernelW (1 / 2) 1 = 8.0 / (Real.pi * 1 ^ 4) * 2 * (1 - (1 / 2) / 1) ^ 3 :=
  ⟨(kernel_support_and_continuity 2 1 one_pos).1 (by norm_num),
   (kernel_support_and_continuity 0.25 1 one_pos).2.1 (by norm_num) (by norm_num),
   (kernel_support_and_continuity 0 1 one_pos).2.2⟩

/-- C8: the integration pass performs, for each particle, exactly the
specification sequence: velocity plus force times dt, position plus velocity
times dt, then independent per-axis clamping with velocity damping on the
crossed face. -/
theorem integration_matches_spec (positions velocities forces : ℕ → Vec3)
    (dt : ℝ) (bmin bmax : Vec3) (damping : ℝ) (i : ℕ) :
    ((integrate_motion positions velocities forces dt bmin bmax damping).1 i,
      (integrate_motion positions velocities forces dt bmin bmax damping).2 i)
      = integrateParticleSpec (positions i) (velocities i) (forces i) dt bmin
          bmax damping := by
  simp only [integrate_motion, integrateParticle, integrateParticleSpec,
    clampAxis_eq_spec]

/-- C9: for any state with all particles inside the boundary box (which holds
for every reachable state, by construction and by C4), `update(0)` leaves
positions and velocities of every particle unchanged. -/
theorem zero_dt_preserves_positions_velocities (s : SPHSystem)
    (hin : ∀ i, i < s.particle_count →
      inBox s.boundary_min s.boundary_max (s.positions i))
    (i : ℕ) (hi : i < s.particle_count) :
    (s.update 0).positions i = s.positions i ∧
      (s.update 0).velocities i = s.velocities i := by
  rw [update_positions_eq, update_velocities_eq,
    integrateParticle_zero_dt _ _ _ _ _ _ (hin i hi)]
  exact ⟨rfl, rfl⟩

/-- C9 witness: the demo system is unchanged in position and velocity by a
zero-dt step. -/
theorem zero_dt_preserves_positions_velocities_witness :
    (demoSystem.update 0).positions 0 = demoSystem.positions 0 ∧
      (demoSystem.update 0).velocities 0 = demoSystem.velocities 0 :=
  zero_dt_preserves_positions_velocities demoSystem
    (by intro i _; norm_num [demoSystem, inBox]) 0 (by norm_num [demoSystem])

/-- C10: a numpy-array gravity argument always fails construction with the
ambiguous-truth-value error, before any state is built; the default `None`
and a Python list resolve without error. -/
theorem ndarray_gravity_rejected (v : Vec3) (pc : ℤ) (h d m k : ℝ)
    (ip : ℕ → Vec3) :
    SPHSystem.build pc h d m k (GravityArg.ndarray v) ip
        = Except.error InitError.ambiguousTruthValue ∧
      resolveGravity GravityArg.none = Except.ok ⟨0.0, -9.81, 0.0⟩ ∧
      resolveGravity (GravityArg.pylist v) = Except.ok v :=
  ⟨rfl, rfl, rfl⟩

/-- C2 counterexample: `update` does not validate dt.  On the one-particle
demo system, a step with dt equal to minus one mutates the particle store:
the velocity changes (gravity is integrated with the negative dt and the
boundary response fires), so the call is not an atomic no-op and does not
fail. -/
theorem negative_dt_mutates_store :
    (demoSystem.update (-1)).velocities 0 ≠ demoSystem.velocities 0 := by
  rw [update_velocities_eq]
  have hF : demoSystem.stepForces 0 = ⟨0, -9.81, 0⟩ := by
    simp only [SPHSystem.stepForces, calculate_forces, demoSystem]
    simp [range_one_eq]
  rw [hF]
  simp only [integrateParticle, clampAxis, demoSystem]
  norm_num [Vec3.ext_iff]

/-- C2 amended: a negative dt is not rejected: `update` runs the integration
pass with that dt on the freshly computed forces, exactly as for any other
dt, and returns the mutated store. -/
theorem negative_dt_not_rejected (s : SPHSystem) (dt : ℝ) (hdt : dt < 0)
    (i : ℕ) :
    (s.update dt).positions i
        = (integrateParticle (s.positions i) (s.velocities i) (s.stepForces i)
            dt s.boundary_min s.boundary_max s.boundary_damping).1 ∧
      (s.update dt).velocities i
        = (integrateParticle (s.positions i) (s.velocities i) (s.stepForces i)
            dt s.boundary_min s.boundary_max s.boundary_damping).2 :=
  ⟨update_positions_eq s dt i, update_velocities_eq s dt i⟩

/-- C2 amended witness: the demo system at dt minus one. -/
theorem negative_dt_not_rejected_witness :
    (demoSystem.update (-1)).positions 0
        = (integrateParticle (demoSystem.positions 0) (demoSystem.velocities 0)
            (demoSystem.stepForces 0) (-1) demoSystem.boundary_min
            demoSystem.boundary_max demoSystem.boundary_damping).1 ∧
      (demoSystem.update (-1)).velocities 0
        = (integrateParticle (demoSystem.positions 0) (demoSystem.velocities 0)
            (demoSystem.stepForces 0) (-1) demoSystem.boundary_min
            demoSystem.boundary_max demoSystem.boundary_damping).2 :=
  negative_dt_not_rejected demoSystem (-1) (by norm_num) 0

/-- C3 counterexample: construction succeeds (returns a fully initialized
object) with `particle_count = 0` and `rest_density = -1`, both of which the
claim says must fail. -/
theorem build_accepts_invalid_config :
    (SPHSystem.build 0 0.1 (-1) 0.1 3.0 GravityArg.none
        (fun _ => ⟨0, 0, 0⟩)).toOption.isSome = true := by
  have h2 : Real.pi * (0.1 : ℝ) ^ 4 ≠ 0 := by positivity
  simp [SPHSystem.build, resolveGravity, h2, Except.toOption]

/-- C3 amended: construction validates nothing; it fails exactly when the
gravity argument is a numpy array (ambiguous truth value), the particle
count is negative (numpy rejects negative dimensions), or the smoothing
radius is zero (zero division computing the kernel constant).  Every other
combination, including zero particle count and non-positive rest density,
yields a fully initialized object. -/
theorem build_succeeds_iff (pc : ℤ) (h d m k : ℝ) (g : GravityArg)
    (ip : ℕ → Vec3) :
    (SPHSystem.build pc h d m k g ip).toOption.isSome = true ↔
      (g.isNdarray = false ∧ 0 ≤ pc ∧ h ≠ 0) := by
  have hmul : Real.pi * h ^ 4 = 0 ↔ h = 0 := by
    constructor
    · intro h0
      rcases mul_eq_zero.mp h0 with h1 | h1
      · exact absurd h1 Real.pi_ne_zero
      · exact pow_eq_zero_iff (by norm_num) |>.mp h1
    · intro h0
      rw [h0]
      ring
  cases g
  case ndarray v =>
    simp [SPHSystem.build, resolveGravity, GravityArg.isNdarray, Except.toOption]
  all_goals
    simp only [SPHSystem.build, resolveGravity, GravityArg.isNdarray]
    by_cases hpc : pc < 0
    · simp [hpc, Except.toOption, show ¬ (0 ≤ pc) from by omega]
    · by_cases hz : Real.pi * h ^ 4 = 0
      · simp [hpc, hz, Except.toOption, hmul.mp hz]
      · simp [hpc, hz, Except.toOption]
        exact ⟨by omega, fun h0 => hz (by rw [h0]; ring)⟩

/-- C5 counterexample: for the concrete neighboring pair (offset along x,
relative velocity along y, inside the cutoff and above the near-zero guard),
the viscosity contribution the code accumulates differs from the claimed
formula in which the velocity difference is scaled by the one scalar
`kernel_gradient_magnitude / density[j]`: the code multiplies elementwise by
the gradient vector, so the y component vanishes while the claimed formula
gives a nonzero y component. -/
theorem viscosity_scalar_claim_counterexample :
    distSq (cpos 0) (cpos 1) < 0.1 * 0.1 ∧
      Real.sqrt (distSq (cpos 0) (cpos 1)) > 1e-8 ∧
      (pairForceContribution cpos cvel cdens cpres 0.1 0.1 0 1).2
        ≠ viscosityContributionSpec cpos cvel cdens 0.1 0.1 0 1 := by
  have h1 : distSq (cpos 0) (cpos 1) < (0.1 : ℝ) * 0.1 := by
    rw [cpos_distSq]
    norm_num
  have h2 : Real.sqrt (distSq (cpos 0) (cpos 1)) > 1e-8 := by
    rw [cpos_sqrt]
    norm_num
  refine ⟨h1, h2, ?_⟩
  rw [pairVisc_eval cpos cvel cdens cpres 0.1 0.1 0 1 h1 h2]
  simp only [viscosityContributionSpec]
  rw [if_pos h1, if_pos h2, cpos_sqrt]
  intro heq
  have hy := congrArg Vec3.y heq
  simp [cpos, cvel, cdens] at hy
  rcases hy with hy | hy | hy
  · norm_num at hy
  · exact absurd hy (ne_of_lt kernelGradMagnitude_demo_neg)
  · norm_num at hy

/-- C5 amended: the accumulated viscosity contribution of a qualifying
neighbor is the elementwise product with the kernel gradient vector: each
component k equals
`viscosity * (velocity_j - velocity_i)_k * ((d_k / r) * gradient_magnitude / density_j)`,
with the gradient entering through its per-axis components, not as one
uniform scalar factor. -/
theorem viscosity_contribution_componentwise (positions velocities : ℕ → Vec3)
    (densities pressures : ℕ → ℝ) (h μ : ℝ) (i j : ℕ)
    (h1 : distSq (positions i) (positions j) < h * h)
    (h2 : Real.sqrt (distSq (positions i) (positions j)) > 1e-8) :
    (pairForceContribution positions velocities densities pressures h μ i j).2
      = ⟨μ * (((velocities j).x - (velocities i).x) *
            ((((positions i).x - (positions j).x)
                / Real.sqrt (distSq (positions i) (positions j))
                * kernelGradMagnitude
                    (Real.sqrt (distSq (positions i) (positions j))) h)
              / densities j)),
         μ * (((velocities j).y - (velocities i).y) *
            ((((positions i).y - (positions j).y)
                / Real.sqrt (distSq (positions i) (positions j))
                * kernelGradMagnitude
                    (Real.sqrt (distSq (positions i) (positions j))) h)
              / densities j)),
         μ * (((velocities j).z - (velocities i).z) *
            ((((positions i).z - (positions j).z)
                / Real.sqrt (distSq (positions i) (positions j))
                * kernelGradMagnitude
                    (Real.sqrt (distSq (positions i) (positions j))) h)
              / densities j))⟩ :=
  pairVisc_eval positions velocities densities pressures h μ i j h1 h2

/-- C5 amended witness: the componentwise form evaluated on the concrete
pair. -/
theorem viscosity_contribution_componentwise_witness :
    (pairForceContribution cpos cvel cdens cpres 0.1 0.1 0 1).2
      = ⟨0.1 * (((cvel 1).x - (cvel 0).x) *
            ((((cpos 0).x - (cpos 1).x)
                / Real.sqrt (distSq (cpos 0) (cpos 1))
                * kernelGradMagnitude
                    (Real.sqrt (distSq (cpos 0) (cpos 1))) 0.1)
              / cdens 1)),
         0.1 * (((cvel 1).y - (cvel 0).y) *
            ((((cpos 0).y - (cpos 1).y)
                / Real.sqrt (distSq (cpos 0) (cpos 1))
                * kernelGradMagnitude
                    (Real.sqrt (distSq (cpos 0) (cpos 1))) 0.1)
              / cdens 1)),
         0.1 * (((cvel 1).z - (cvel 0).z) *
            ((((cpos 0).z - (cpos 1).z)
                / Real.sqrt (distSq (cpos 0) (cpos 1))
                * kernelGradMagnitude
                    (Real.sqrt (distSq (cpos 0) (cpos 1))) 0.1)
              / cdens 1))⟩ :=
  viscosity_contribution_componentwise cpos cvel cdens cpres 0.1 0.1 0 1
    (by rw [cpos_distSq]; norm_num) (by rw [cpos_sqrt]; norm_num)

/-- C6 counterexample: with gravity (1, 2, 3) and a single neighborless
particle with zeroed force buffer, the force pass produces (0, 2, 0), not the
full gravity vector (1, 2, 3): only the y component of gravity is added. -/
theorem gravity_full_vector_counterexample :
    calculate_forces (fun _ => ⟨0, 0, 0⟩) (fun _ => ⟨0, 0, 0⟩)
        (fun _ => 1000.0) (fun _ => 0) (fun _ => ⟨0, 0, 0⟩) 0.1 0.1 0
        ⟨1, 2, 3⟩ 1 0 = ⟨0, 2, 0⟩ ∧
      (Vec3.mk 0 2 0) ≠ ⟨1, 2, 3⟩ := by
  constructor
  · simp only [calculate_forces]
    simp [range_one_eq]
  · norm_num [Vec3.ext_iff]

/-- C6 amended: the force accumulator starts from the incoming force with
gravity added to the y component only (`forces[i, 1] += gravity[1]`, the
source comment says only the y component for now), and the result decomposes
as that starting vector plus the summed per-pair pressure and viscosity
contributions. -/
theorem force_accumulator_decomposition (positions velocities : ℕ → Vec3)
    (densities pressures : ℕ → ℝ) (forces : ℕ → Vec3) (h μ kc : ℝ) (g : Vec3)
    (n i : ℕ) :
    calculate_forces positions velocities densities pressures forces h μ kc g n i
      = Vec3.mk (forces i).x ((forces i).y + g.y) (forces i).z
        + ((List.range n).map fun j => if i = j then 0 else
            (pairForceContribution positions velocities densities pressures
              h μ i j).1).sum
        + ((List.range n).map fun j => if i = j then 0 else
            (pairForceContribution positions velocities densities pressures
              h μ i j).2).sum := by
  simp only [calculate_forces]
  rw [foldl_skip_pair (List.range n) i
    (fun j => (pairForceContribution positions velocities densities pressures
      h μ i j).1)
    (fun j => (pairForceContribution positions velocities densities pressures
      h μ i j).2)
    ((0 : Vec3), (0 : Vec3))]
  simp
